import Mathlib

/-!
Verification of the planter recommendation/chat subsystem
(`internal/services` recommendation service and the recommendation
repository) against its natural-language specification.

Conventions of the embedding:
* Go `float64` values appearing in the scoring engine are nonnegative
  dyadic rationals; we represent such a value exactly as a `Nat` scaled
  by `2^56` (all constants `0.4, 0.3, 0.2, 0.15, 0.1` and all partial
  sums reachable in the engine are integer multiples of `2^-56`).
  `dadd` below is IEEE-754 binary64 addition (round to nearest, ties to
  even) restricted to this range: no overflow, no subnormals, both
  summands exactly representable, hence the rounding of the exact sum
  at 53 significant bits is exactly the hardware result.
* Go strings subject to case folding / substring search are `List Char`;
  `ToLower` is modelled per character (faithful on the ASCII inputs all
  comparisons in this development use).
* Go `uuid.UUID` identities are `Nat`.
* Fallible Go functions returning `(T, error)` become `Except`.
* The SQL repository is modelled as explicit state; the
  `UNIQUE(questionnaire_id, plant_id)` constraint of
  `plant_recommendations` (scripts/schema.sql) makes the plain `INSERT`
  of `SaveRecommendation` fail when the pair is already stored.
-/

namespace Planter

/-! ## IEEE-754 binary64 values scaled by 2^56 -/

/-- Binary length computed with explicit fuel so that the kernel can
evaluate it (64 bits of fuel; every value in this development is below
`2^57`). -/
def bitsFuel : Nat → Nat → Nat
  | 0, _ => 0
  | f + 1, n => if n = 0 then 0 else bitsFuel f (n / 2) + 1

/-- Number of significant bits of `n` (0 for 0); correct for `n < 2^64`. -/
def bitCount (n : Nat) : Nat := bitsFuel 64 n

/-- Round a nonnegative multiple of `2^-56` (scaled by `2^56`) to the
nearest binary64 value (53 significant bits), ties to even. -/
def dround (n : Nat) : Nat :=
  let L := bitCount n
  if L ≤ 53 then n
  else
    let s := L - 53
    let q := n / 2 ^ s
    let r := n % 2 ^ s
    let half := 2 ^ (s - 1)
    let q2 := if r < half then q else if half < r then q + 1
              else if q % 2 = 0 then q else q + 1
    q2 * 2 ^ s

/-- binary64 addition on scaled values (`score += c` in the Go code). -/
def dadd (a b : Nat) : Nat := dround (a + b)

/-- Scaled nearest binary64 of the Go literal `0.4`. -/
def w04 : Nat := 28823037615171176
/-- Scaled nearest binary64 of the Go literal `0.3`. -/
def w03 : Nat := 21617278211378380
/-- Scaled nearest binary64 of the Go literal `0.2`. -/
def w02 : Nat := 14411518807585588
/-- Scaled nearest binary64 of the Go literal `0.15`. -/
def w015 : Nat := 10808639105689190
/-- Scaled nearest binary64 of the Go literal `0.1`. -/
def w01 : Nat := 7205759403792794


/-! ## Data model (internal/models/models.go) -/

/-- `models.SunlightLevel` (`LOW` / `MEDIUM` / `HIGH`). -/
inductive SunlightLevel
  | low
  | medium
  | high
deriving DecidableEq, Repr

/-- The string value of a `SunlightLevel` (Go string enum). -/
def SunlightLevel.str : SunlightLevel → List Char
  | .low => ("LOW").toList
  | .medium => ("MEDIUM").toList
  | .high => ("HIGH").toList

/-- The fields of `models.CareInstructions` used by the subsystem. -/
structure CareInstructions where
  sunlight : SunlightLevel
  fertilizerFrequency : Int
  additionalNotes : List Char
deriving DecidableEq, Repr

/-- The fields of `models.Plant` used by the subsystem. -/
structure Plant where
  id : Nat
  name : List Char
  scientificName : List Char
  careInstructions : CareInstructions
deriving DecidableEq, Repr

/-- `models.PlantQuestionnaire`. -/
structure PlantQuestionnaire where
  id : Nat
  userID : Option Nat
  sunlightPreference : SunlightLevel
  petFriendly : Bool
  careLevel : Int
  preferredLocation : Option (List Char)
  additionalPreferences : Option (List Char)
deriving DecidableEq, Repr

/-- An exact rational with positive denominator (stored minus one so
positivity holds by construction), used for `float64` score values so
that the kernel can evaluate score computations (`ℚ`'s normalizing
arithmetic does not reduce definitionally). -/
structure Frac where
  num : Int
  dpred : Nat
deriving DecidableEq, Repr

/-- The (positive) denominator. -/
def Frac.den (f : Frac) : Nat := f.dpred + 1

/-- The rational value. -/
def Frac.toRat (f : Frac) : ℚ := (f.num : ℚ) / (f.den : ℚ)

/-- Value comparison by cross multiplication. -/
def Frac.leB (a b : Frac) : Bool := decide (a.num * (b.den : Int) ≤ b.num * (a.den : Int))

/-- The exact value denoted by a scaled binary64 number. -/
def dval (n : Nat) : Frac := { num := (n : Int), dpred := 2 ^ 56 - 1 }

/-- `models.PlantRecommendation` (identity and `created_at` are
assigned by the database and play no role in the claims). The score is
kept as the exact rational value of the stored binary64. -/
structure PlantRecommendation where
  questionnaireID : Nat
  plantID : Nat
  score : Frac
  reasoning : List Char
deriving DecidableEq, Repr

/-! ## String helpers (Go `strings` package operations used) -/

/-- Per-character lower casing (`strings.ToLower`; ASCII-faithful). -/
def toLowerList (s : List Char) : List Char := s.map Char.toLower

/-- Does `hay` start with `needle`? -/
def startsWith : List Char → List Char → Bool
  | _, [] => true
  | [], _ :: _ => false
  | h :: hs, n :: ns => h = n && startsWith hs ns

/-- `strings.Contains hay needle`: `needle` occurs as a contiguous
substring of `hay`. -/
def containsSeq : List Char → List Char → Bool
  | [], needle => needle.isEmpty
  | h :: hs, needle => startsWith (h :: hs) needle || containsSeq hs needle

/-- `strings.TrimSpace` (leading and trailing whitespace removed). -/
def trimSpace (s : List Char) : List Char :=
  ((s.dropWhile Char.isWhitespace).reverse.dropWhile Char.isWhitespace).reverse

/-! ## Scoring Engine (`generateLocalRecommendations`, part_007:136–209)

The loop body of `generateLocalRecommendations` computes a score and a
reasoning string per plant; `scorePlant` is its faithful transcription
(score as scaled binary64, accumulated with `dadd` exactly where the Go
code executes `score += …`; when a rule does not fire no operation is
performed, as in the source). -/

/-- The score accumulated by one loop iteration of
`generateLocalRecommendations` (the `score` variable at the end of the
loop body; the parallel `reasoning` accumulation is transcribed
separately below with the identical branch structure). -/
def scorePlantScore (q : PlantQuestionnaire) (p : Plant) : Nat :=
  -- Match sunlight preference
  let s1 : Nat :=
    if p.careInstructions.sunlight = q.sunlightPreference then dadd 0 w04
    else if (p.careInstructions.sunlight = .medium ∧
              (q.sunlightPreference = .low ∨ q.sunlightPreference = .high)) ∨
            ((p.careInstructions.sunlight = .low ∨ p.careInstructions.sunlight = .high) ∧
              q.sunlightPreference = .medium) then dadd 0 w02
    else 0
  -- Match care level (1-5 scale); the Go int→float64 conversion of the
  -- absolute difference is exact, so the `== 0` / `== 1` float
  -- comparisons are integer comparisons
  let careLevelDiff : Nat := (p.careInstructions.fertilizerFrequency - q.careLevel).natAbs
  let s2 : Nat :=
    if careLevelDiff = 0 then dadd s1 w03
    else if careLevelDiff = 1 then dadd s1 w015
    else s1
  -- Match pet friendly requirement (flat bonus, see source comment)
  let s3 : Nat := if q.petFriendly then dadd s2 w01 else s2
  -- Add location matching if specified
  match q.preferredLocation with
  | some loc =>
    if p.careInstructions.additionalNotes ≠ [] then
      if containsSeq (toLowerList p.careInstructions.additionalNotes) (toLowerList loc) then
        dadd s3 w02
      else s3
    else s3
  | none => s3

/-- The reasoning string accumulated by the same loop iteration. -/
def scorePlantReasoning (q : PlantQuestionnaire) (p : Plant) : List Char :=
  let r1 : List Char :=
    if p.careInstructions.sunlight = q.sunlightPreference then
      ("Уровень освещенности (").toList ++ p.careInstructions.sunlight.str ++
        (") полностью соответствует вашим требованиям. ").toList
    else if (p.careInstructions.sunlight = .medium ∧
              (q.sunlightPreference = .low ∨ q.sunlightPreference = .high)) ∨
            ((p.careInstructions.sunlight = .low ∨ p.careInstructions.sunlight = .high) ∧
              q.sunlightPreference = .medium) then
      ("Уровень освещенности (").toList ++ p.careInstructions.sunlight.str ++
        (") частично соответствует вашим требованиям. ").toList
    else []
  let careLevelDiff : Nat := (p.careInstructions.fertilizerFrequency - q.careLevel).natAbs
  let r2 : List Char :=
    if careLevelDiff = 0 then
      r1 ++ ("Уровень ухода полностью соответствует вашим возможностям. ").toList
    else if careLevelDiff = 1 then r1 ++ ("Уровень ухода близок к желаемому. ").toList
    else r1
  let r3 : List Char :=
    if q.petFriendly then r2 ++ ("Растение безопасно для домашних животных. ").toList
    else r2
  match q.preferredLocation with
  | some loc =>
    if p.careInstructions.additionalNotes ≠ [] then
      if containsSeq (toLowerList p.careInstructions.additionalNotes) (toLowerList loc) then
        r3 ++ ("Подходит для размещения в ").toList ++ loc ++ (". ").toList
      else r3
    else r3
  | none => r3

/-- Descending-score comparison used to model `sort.Slice` with
`recommendations[i].Score > recommendations[j].Score`. `sort.Slice` is
not stable; the stable `mergeSort` below fixes one deterministic order
consistent with the comparator (every theorem stated here is
insensitive to the order of equal-score entries). -/
def scoreGE (a b : PlantRecommendation) : Bool := Frac.leB b.score a.score

/-- The loop's threshold test `score > 0.3` ("Minimum 30% match"). -/
def qualifies (q : PlantQuestionnaire) (p : Plant) : Bool :=
  w03 < scorePlantScore q p

/-- The recommendation record appended for a qualifying plant
(reasoning trimmed with `strings.TrimSpace` as in the source). -/
def mkLocalRec (q : PlantQuestionnaire) (p : Plant) : PlantRecommendation :=
  { questionnaireID := q.id, plantID := p.id,
    score := dval (scorePlantScore q p),
    reasoning := trimSpace (scorePlantReasoning q p) }

/-- `generateLocalRecommendations` (the Go method never returns a
non-nil error; its only return is `recommendations, nil`). -/
def generateLocalRecommendations (q : PlantQuestionnaire) (allPlants : List Plant) :
    List PlantRecommendation :=
  let recommendations := allPlants.foldl
    (fun acc p =>
      -- Create recommendation if score is above threshold (`score > 0.3`)
      if qualifies q p then acc ++ [mkLocalRec q p] else acc)
    []
  let sorted := recommendations.mergeSort scoreGE
  if 5 < sorted.length then sorted.take 5 else sorted

/-! ## Claim-side restatement of the scoring rules (C1)

These definitions follow the words of the specification/claim, not the
source, and are compared with `scorePlant` by theorem. -/

/-- Claim C1's adjacency: LOW↔MEDIUM or MEDIUM↔HIGH, never LOW↔HIGH. -/
def adjacentLevel (a b : SunlightLevel) : Prop :=
  (a = .low ∧ b = .medium) ∨ (a = .medium ∧ b = .low) ∨
  (a = .medium ∧ b = .high) ∨ (a = .high ∧ b = .medium)

instance (a b : SunlightLevel) : Decidable (adjacentLevel a b) := by
  unfold adjacentLevel; infer_instance

/-- Claim C1 sunlight rule: +0.4 exact, +0.2 adjacent. -/
def claimSunContrib (q : PlantQuestionnaire) (p : Plant) : Nat :=
  if q.sunlightPreference = p.careInstructions.sunlight then w04
  else if adjacentLevel q.sunlightPreference p.careInstructions.sunlight then w02
  else 0

/-- Claim C1 care rule: +0.3 at difference 0, +0.15 at difference 1. -/
def claimCareContrib (q : PlantQuestionnaire) (p : Plant) : Nat :=
  if (q.careLevel - p.careInstructions.fertilizerFrequency).natAbs = 0 then w03
  else if (q.careLevel - p.careInstructions.fertilizerFrequency).natAbs = 1 then w015
  else 0

/-- Claim C1 pet rule: flat +0.1 whenever pet-friendliness is requested. -/
def claimPetContrib (q : PlantQuestionnaire) : Nat :=
  if q.petFriendly then w01 else 0

/-- Claim C1 location rule exactly as stated: +0.2 when a preferred
location is given and occurs case-insensitively as a substring of the
plant's care notes (no further condition). -/
def claimLocContribStated (q : PlantQuestionnaire) (p : Plant) : Nat :=
  match q.preferredLocation with
  | some loc =>
    if containsSeq (toLowerList p.careInstructions.additionalNotes) (toLowerList loc) then w02
    else 0
  | none => 0

/-- Amended location rule: additionally requires the plant's care notes
to be non-empty (the guard present in the source). -/
def claimLocContribAmended (q : PlantQuestionnaire) (p : Plant) : Nat :=
  match q.preferredLocation with
  | some loc =>
    if p.careInstructions.additionalNotes ≠ [] then
      if containsSeq (toLowerList p.careInstructions.additionalNotes) (toLowerList loc) then w02
      else 0
    else 0
  | none => 0

/-- Claim C1's score as stated: the (binary64) sum of the four
independent rule contributions. -/
def claimScoreStated (q : PlantQuestionnaire) (p : Plant) : Nat :=
  [claimSunContrib q p, claimCareContrib q p, claimPetContrib q,
   claimLocContribStated q p].foldl dadd 0

/-- Claim C1's score with the amended location rule. -/
def claimScoreAmended (q : PlantQuestionnaire) (p : Plant) : Nat :=
  [claimSunContrib q p, claimCareContrib q p, claimPetContrib q,
   claimLocContribAmended q p].foldl dadd 0

/-- C1 counterexample questionnaire: empty-string preferred location. -/
def c1Q : PlantQuestionnaire :=
  { id := 0, userID := none, sunlightPreference := .low, petFriendly := false,
    careLevel := 5, preferredLocation := some [], additionalPreferences := none }

/-- C1 counterexample plant: empty care notes. -/
def c1P : Plant :=
  { id := 1, name := [], scientificName := [],
    careInstructions := { sunlight := .high, fertilizerFrequency := 1, additionalNotes := [] } }

/-- Scenario questionnaire of C1: MEDIUM sunlight, pet-friendly,
care-level 3, location "bedroom". -/
def scenQ : PlantQuestionnaire :=
  { id := 10, userID := none, sunlightPreference := .medium, petFriendly := true,
    careLevel := 3, preferredLocation := some (("bedroom").toList),
    additionalPreferences := none }

/-- Scenario plant of C1: MEDIUM sunlight, care-burden 3, notes
"great for a bedroom". -/
def scenP : Plant :=
  { id := 11, name := [], scientificName := [],
    careInstructions := { sunlight := .medium, fertilizerFrequency := 3,
                          additionalNotes := ("great for a bedroom").toList } }

/-- C2 boundary questionnaire: MEDIUM preference, pet-friendly,
care-level 3, no location. -/
def c2Q : PlantQuestionnaire :=
  { id := 7, userID := none, sunlightPreference := .medium, petFriendly := true,
    careLevel := 3, preferredLocation := none, additionalPreferences := none }

/-- C2 boundary plant: HIGH sunlight, care-burden 1, empty notes. -/
def c2P : Plant :=
  { id := 42, name := [], scientificName := [],
    careInstructions := { sunlight := .high, fertilizerFrequency := 1, additionalNotes := [] } }

/-- The sorted qualifying records before truncation. -/
def localSorted (q : PlantQuestionnaire) (plants : List Plant) : List PlantRecommendation :=
  ((plants.filter (qualifies q)).map (mkLocalRec q)).mergeSort scoreGE

/-! ## Response Parser (`parseYandexGPTResponse`, part_007:466–544)

`fmt.Sscanf(lineStr, "%d. %s - %f", …)` is modelled by `scanLine`:
each verb skips leading whitespace, `%d` is an optionally signed digit
run, the literal `.` and `-` must match exactly, the format spaces
match zero or more input spaces, `%s` is a maximal non-empty run of
non-whitespace characters, and `%f` is an optionally signed decimal
(Go also accepts exponent forms; the claims only exercise plain
decimals). Trailing input after the third verb is ignored, as by
`Sscanf`. The parsed score is kept as the exact decimal rational; Go
stores the nearest binary64, which differs by less than one part in
2^53 — immaterial to every property stated here. -/

/-- Whitespace skipping before a verb / for a format-string space. -/
def dropSpaces (cs : List Char) : List Char := cs.dropWhile Char.isWhitespace

/-- Decimal value of a digit run. -/
def digitsVal (ds : List Char) : Nat := ds.foldl (fun acc c => 10 * acc + (c.toNat - 48)) 0

/-- A non-empty digit run and the rest. -/
def scanDigits (cs : List Char) : Option (Nat × List Char) :=
  let ds := cs.takeWhile Char.isDigit
  if ds.isEmpty then none else some (digitsVal ds, cs.dropWhile Char.isDigit)

/-- `%d`: skip whitespace, optional sign, digits. -/
def scanInt (cs : List Char) : Option (Int × List Char) :=
  match dropSpaces cs with
  | '-' :: rest => (scanDigits rest).map (fun dn => (-(dn.1 : Int), dn.2))
  | '+' :: rest => (scanDigits rest).map (fun dn => ((dn.1 : Int), dn.2))
  | rest => (scanDigits rest).map (fun dn => ((dn.1 : Int), dn.2))

/-- A literal character of the format string. -/
def expectChar (c : Char) (cs : List Char) : Option (List Char) :=
  match cs with
  | c2 :: rest => if c2 = c then some rest else none
  | [] => none

/-- `%s`: skip whitespace, then a maximal non-empty run of
non-whitespace characters. -/
def scanToken (cs : List Char) : Option (List Char × List Char) :=
  let cs2 := dropSpaces cs
  let t := cs2.takeWhile (fun c => !c.isWhitespace)
  if t.isEmpty then none else some (t, cs2.dropWhile (fun c => !c.isWhitespace))

/-- Unsigned decimal with optional fractional part (at least one digit
overall), as an exact rational. -/
def scanUDec (cs : List Char) : Option (Frac × List Char) :=
  let ds := cs.takeWhile Char.isDigit
  let rest := cs.dropWhile Char.isDigit
  match rest with
  | '.' :: rest2 =>
    let fs := rest2.takeWhile Char.isDigit
    if ds.isEmpty && fs.isEmpty then none
    else some ({ num := (digitsVal ds * 10 ^ fs.length + digitsVal fs : Int),
                 dpred := 10 ^ fs.length - 1 },
               rest2.dropWhile Char.isDigit)
  | _ => if ds.isEmpty then none else some ({ num := (digitsVal ds : Int), dpred := 0 }, rest)

/-- `%f`: skip whitespace, optional sign, unsigned decimal. -/
def scanFloatDec (cs : List Char) : Option (Frac × List Char) :=
  match dropSpaces cs with
  | '-' :: rest => (scanUDec rest).map (fun qr => ({ qr.1 with num := -qr.1.num }, qr.2))
  | '+' :: rest => scanUDec rest
  | rest => scanUDec rest

/-- A successful `fmt.Sscanf(line, "%d. %s - %f", …)`:
`(index, name, score)`. -/
def scanLine (cs : List Char) : Option (Int × List Char × Frac) := do
  let (n, r1) ← scanInt cs
  let r2 ← expectChar '.' r1
  let (_tok, r3) ← scanToken r2
  let r4 ← expectChar '-' (dropSpaces r3)
  let (s, _) ← scanFloatDec r4
  pure (n, _tok, s)

/-- `bytes.Split(response, "\n")`: the empty input yields one empty
line. -/
def splitLines : List Char → List (List Char)
  | [] => [[]]
  | '\n' :: rest => [] :: splitLines rest
  | c :: rest =>
    match splitLines rest with
    | [] => [[c]]
    | l :: ls => (c :: l) :: ls

/-- The parser loop's mutable variables. -/
structure ParseState where
  recs : List PlantRecommendation
  currentPlantNumber : Int
  currentScore : Frac
  currentReasoning : List Char
  parsingReasoning : Bool
deriving Repr, DecidableEq

/-- `currentReasoning` update: newline-join a further line. -/
def appendReason (r l : List Char) : List Char :=
  if 0 < r.length then r ++ '\n' :: l else l

/-- Flushing the open record (used both when a new record starts and at
end of input). The source re-checks `currentPlantNumber <= len` and
indexes `allPlants[currentPlantNumber-1]`; the `get?`-match transcribes
the checked indexing (`none` is unreachable in reachable states). -/
def flushState (qid : Nat) (plants : List Plant) (st : ParseState) :
    List PlantRecommendation :=
  if st.parsingReasoning ∧ 0 < st.currentPlantNumber then
    if st.currentPlantNumber ≤ (plants.length : Int) then
      match plants.get? (st.currentPlantNumber.toNat - 1) with
      | some plant =>
        st.recs ++ [{ questionnaireID := qid, plantID := plant.id,
                      score := st.currentScore, reasoning := st.currentReasoning }]
      | none => st.recs
    else st.recs
  else st.recs

/-- One iteration of the parser loop on a non-empty line (the part of
the loop body after the `continue` for empty lines). -/
def lineStep (qid : Nat) (plants : List Plant) (st : ParseState) (l : List Char) :
    ParseState :=
  match scanLine l with
  | some nts =>
    if 0 < nts.1 ∧ nts.1 ≤ (plants.length : Int) then
      { recs := flushState qid plants st
        currentPlantNumber := nts.1, currentScore := nts.2.2
        currentReasoning := [], parsingReasoning := true }
    else if st.parsingReasoning then
      { st with currentReasoning := appendReason st.currentReasoning l }
    else st
  | none =>
    if st.parsingReasoning then
      { st with currentReasoning := appendReason st.currentReasoning l }
    else st

/-- The full loop body: empty lines are skipped (`continue`). -/
def parseStep (qid : Nat) (plants : List Plant) (st : ParseState) (l : List Char) :
    ParseState :=
  if l.isEmpty then st else lineStep qid plants st l

/-- Loop-entry state. -/
def initialParseState : ParseState :=
  { recs := [], currentPlantNumber := 0, currentScore := { num := 0, dpred := 0 },
    currentReasoning := [], parsingReasoning := false }

/-- `parseYandexGPTResponse`: scan all lines, flush the last open
record, fail iff nothing was extracted. -/
def parseYandexGPTResponse (response : List Char) (qid : Nat) (plants : List Plant) :
    Except Unit (List PlantRecommendation) :=
  let lines := splitLines response
  let final := lines.foldl (parseStep qid plants) initialParseState
  let recommendations := flushState qid plants final
  if recommendations.isEmpty then Except.error () else Except.ok recommendations

/-! ## Claim-side restatement of the parser (C5) -/

/-- Claim C5's scan exactly as stated: every line (empty ones included)
either starts a record or, while one is open, is appended newline-joined
to its reasoning — the loop body applied without the source's skipping
of empty lines. -/
def claimParseStated (response : List Char) (qid : Nat) (plants : List Plant) :
    Except Unit (List PlantRecommendation) :=
  let lines := splitLines response
  let final := lines.foldl (lineStep qid plants) initialParseState
  let recommendations := flushState qid plants final
  if recommendations.isEmpty then Except.error () else Except.ok recommendations

/-- A line starting a record per claim C5: it parses as
`<int>. <token> - <float>` and its leading integer is a valid 1-based
index into the candidate list. -/
def lineRec (plants : List Plant) (l : List Char) : Option (Plant × Frac) :=
  match scanLine l with
  | none => none
  | some nts =>
    if 0 < nts.1 then (plants.get? (nts.1.toNat - 1)).map (fun p => (p, nts.2.2)) else none

/-- A line that does not start a record. -/
def noRec (plants : List Plant) (l : List Char) : Bool := (lineRec plants l).isNone

/-- Newline-joining of reasoning lines. -/
def joinNL : List (List Char) → List Char
  | [] => []
  | [l] => l
  | l :: rest => l ++ '\n' :: joinNL rest

/-- Claim C5's scan in declarative grouping form: each record-starting
line yields one record whose reasoning is the newline-joined run of
following non-record lines; lines before the first record are dropped;
end of input flushes the last record. -/
def claimScanSpan (qid : Nat) (plants : List Plant) : List (List Char) → List PlantRecommendation
  | [] => []
  | l :: rest =>
    match lineRec plants l with
    | none => claimScanSpan qid plants rest
    | some ps =>
      { questionnaireID := qid, plantID := ps.1.id, score := ps.2,
        reasoning := joinNL (rest.takeWhile (noRec plants)) }
        :: claimScanSpan qid plants (rest.dropWhile (noRec plants))
termination_by ls => ls.length
decreasing_by
  · simp only [List.length_cons]
    omega
  · simp only [List.length_cons]
    exact Nat.lt_succ_of_le (List.Sublist.length_le (List.dropWhile_sublist _))


/-- C5/C8 test plant (1-based index 1 of the candidate list). -/
def c5Plant : Plant :=
  { id := 3, name := [], scientificName := [],
    careInstructions := { sunlight := .low, fertilizerFrequency := 1, additionalNotes := [] } }

/-- C5 counterexample text: a record line, then reasoning lines with an
empty line between them. -/
def c5Input : List Char := ("1. Rose - 0.9\na\n\nb").toList

/-! ## External Recommendation Client (`callYandexGPTAPI`, part_007:394–464) -/

/-- A message of the completion API (`{role, text}`). -/
structure Message where
  role : String
  text : String
deriving DecidableEq, Repr

/-- One alternative of the decoded response body. -/
structure GptAlternative where
  message : Message
deriving DecidableEq, Repr

/-- The decoded response body (`result.alternatives`). -/
structure GptResponseBody where
  alternatives : List GptAlternative
deriving DecidableEq, Repr

/-- The failure modes of `callYandexGPTAPI`. -/
inductive CallError
  | transport
  | status (code : Nat)
  | decode
  | empty
deriving DecidableEq, Repr

/-- `callYandexGPTAPI` from the point the request is sent: the outcome
as a function of the transport result, the HTTP status code, and the
decoded body (`none` models a body the JSON decoder rejects). Request
building (model id, temperature, messages) cannot fail for the inputs
the service passes and does not affect this contract. The source
compares the status against `http.StatusOK`, i.e. the literal 200. -/
def callYandexGPTAPI (transportOk : Bool) (statusCode : Nat)
    (body : Option GptResponseBody) : Except CallError String :=
  if !transportOk then Except.error CallError.transport
  else if statusCode ≠ 200 then Except.error (CallError.status statusCode)
  else
    match body with
    | none => Except.error CallError.decode
    | some r =>
      match r.alternatives with
      | [] => Except.error CallError.empty
      | alt :: _ => Except.ok alt.message.text

/-! ## Recommendation repository and orchestrator
(`GenerateRecommendations`, part_007:219–268;
`SaveRecommendation`, internal/repository/impl/recommendation_repository.go:59–70;
`plant_recommendations` schema, scripts/schema.sql:145–153) -/

/-- The repository state visible to the orchestrator. -/
structure RecState where
  questionnaires : List PlantQuestionnaire
  plants : List Plant
  recs : List PlantRecommendation
deriving DecidableEq, Repr

/-- `GetQuestionnaire` (row lookup; `sql.ErrNoRows` → not found). -/
def getQuestionnaire (st : RecState) (qid : Nat) : Option PlantQuestionnaire :=
  st.questionnaires.find? (fun q => q.id = qid)

/-- Errors of the recommendation store. -/
inductive SaveError
  | uniqueViolation
deriving DecidableEq, Repr

/-- Is a row for `(questionnaire, plant)` already stored? -/
def pairStored (recs : List PlantRecommendation) (qid pid : Nat) : Bool :=
  recs.any (fun r => r.questionnaireID = qid ∧ r.plantID = pid)

/-- `SaveRecommendation`: a plain `INSERT INTO plant_recommendations`
with no `ON CONFLICT` clause and no prior existence check; under the
schema's `UNIQUE(questionnaire_id, plant_id)` constraint the insert
errors when the pair is already stored, and appends the row
otherwise. -/
def saveRecommendation (st : RecState) (rec : PlantRecommendation) :
    Except SaveError RecState :=
  if pairStored st.recs rec.questionnaireID rec.plantID then
    Except.error SaveError.uniqueViolation
  else Except.ok { st with recs := st.recs ++ [rec] }

/-- The save loop of `GenerateRecommendations` (returns the first
failing save's error). -/
def saveAll (st : RecState) : List PlantRecommendation → Except SaveError RecState
  | [] => Except.ok st
  | r :: rest =>
    match saveRecommendation st r with
    | Except.error e => Except.error e
    | Except.ok st2 => saveAll st2 rest

/-- `GetRecommendedPlants`: plants joined to the questionnaire's stored
recommendations, ordered by stored score descending (the SQL `JOIN` +
`ORDER BY pr.score DESC`). -/
def getRecommendedPlants (st : RecState) (qid : Nat) : List Plant :=
  ((st.recs.filter (fun r => r.questionnaireID = qid)).mergeSort scoreGE).filterMap
    (fun r => st.plants.find? (fun p => p.id = r.plantID))

/-- Failures of the external pipeline, treated as recoverable by the
orchestrator. -/
inductive PipelineError
  | api (e : CallError)
  | parse
deriving DecidableEq, Repr

/-- `generateRecommendationsWithYandexGPT`: the external call (its
outcome injected as `apiResult`) followed by the Response Parser. -/
def generateRecommendationsWithYandexGPT (q : PlantQuestionnaire) (allPlants : List Plant)
    (apiResult : Except CallError String) : Except PipelineError (List PlantRecommendation) :=
  match apiResult with
  | Except.error e => Except.error (PipelineError.api e)
  | Except.ok text =>
    match parseYandexGPTResponse text.toList q.id allPlants with
    | Except.error _ => Except.error PipelineError.parse
    | Except.ok recs => Except.ok recs

/-- Errors `GenerateRecommendations` can return (pipeline failures are
caught and converted into the local fallback, so they do not appear;
plant-catalog and join reads are modelled as infallible state reads). -/
inductive GenError
  | questionnaireNotFound
  | save (e : SaveError)
deriving DecidableEq, Repr

/-- `GenerateRecommendations`: load questionnaire and catalog, use the
external pipeline when an API key is configured, fall back to the local
engine on its failure (or use it directly with no key), save every
produced recommendation, and return the joined recommended plants. -/
def GenerateRecommendations (st : RecState) (qid : Nat) (apiKey : String)
    (apiResult : Except CallError String) : Except GenError (List Plant × RecState) :=
  match getQuestionnaire st qid with
  | none => Except.error GenError.questionnaireNotFound
  | some q =>
    let allPlants := st.plants
    let recommendations :=
      if apiKey ≠ "" then
        match generateRecommendationsWithYandexGPT q allPlants apiResult with
        | Except.ok recs => recs
        -- Fallback to local recommendations if Yandex GPT fails
        | Except.error _ => generateLocalRecommendations q allPlants
      else generateLocalRecommendations q allPlants
    match saveAll st recommendations with
    | Except.error e => Except.error (GenError.save e)
    | Except.ok st2 => Except.ok (getRecommendedPlants st2 qid, st2)

/-- C9 counterexample state: a recommendation row for the pair
`(c2Q.id, c2P.id)` is already stored. -/
def c9St : RecState :=
  { questionnaires := [c2Q], plants := [c2P],
    recs := [{ questionnaireID := 7, plantID := 42, score := dval w03, reasoning := [] }] }

/-- The at-most-one-row-per-(questionnaire, plant) invariant. -/
def pairUniqueInv (recs : List PlantRecommendation) : Prop :=
  List.Pairwise (fun a b => ¬(a.questionnaireID = b.questionnaireID ∧ a.plantID = b.plantID)) recs

/-! ## Chat Session Manager (part_007:546–703) -/

/-- `models.ChatSession` (timestamps tracked via `lastUsedBumps`). -/
structure ChatSession where
  id : Nat
  userID : Nat
  title : String
deriving DecidableEq, Repr

/-- `models.ChatMessage` (`created_at` order is list order). -/
structure ChatMessage where
  id : Nat
  sessionID : Nat
  userID : Nat
  role : String
  content : String
deriving DecidableEq, Repr

/-- Service + repository state for the chat operations: persisted
sessions and messages (append-only, creation order), the in-memory
per-session message cache `s.chatSessions`, the sequence of
`UpdateChatSessionLastUsed` calls, and the next fresh message id. -/
structure ChatState where
  sessions : List ChatSession
  messages : List ChatMessage
  chatSessions : List (Nat × List Message)
  lastUsedBumps : List Nat
  nextID : Nat
deriving DecidableEq, Repr

/-- The fixed system directive (assistant persona, in Russian). -/
def systemDirective : Message :=
  { role := "system",
    text := "Ты - эксперт по растениям. Помогай пользователям с вопросами о выращивании, уходе и выборе растений. Отвечай на русском языке." }

/-- Read of the in-memory map `s.chatSessions[sessionID]`. -/
def lookupCache (cache : List (Nat × List Message)) (sid : Nat) : Option (List Message) :=
  (cache.find? (fun e => e.1 = sid)).map (fun e => e.2)

/-- Write of the in-memory map `s.chatSessions[sessionID] = ms`. -/
def setCache (cache : List (Nat × List Message)) (sid : Nat) (ms : List Message) :
    List (Nat × List Message) :=
  if cache.any (fun e => e.1 = sid) then
    cache.map (fun e => if e.1 = sid then (sid, ms) else e)
  else cache ++ [(sid, ms)]

/-- `GetChatSession` (row lookup). -/
def findSession (st : ChatState) (sid : Nat) : Option ChatSession :=
  st.sessions.find? (fun s => s.id = sid)

/-- Repository `GetChatMessages`: the session's turns in creation
order. -/
def getChatMessagesRepo (st : ChatState) (sid : Nat) : List ChatMessage :=
  st.messages.filter (fun m => m.sessionID = sid)

/-- Failure modes of the chat operations. -/
inductive ChatError
  | sessionNotFound
  | notOwner
  | api (e : CallError)
deriving DecidableEq, Repr

/-- `CreateChatSession`: persist a session with the fixed default title
and seed the in-memory cache with the system directive (the new row id
is injected as `newSessionID`). -/
def CreateChatSession (st : ChatState) (userID : Nat) (newSessionID : Nat) :
    ChatSession × ChatState :=
  let session : ChatSession :=
    { id := newSessionID, userID := userID, title := "Разговор о растениях" }
  (session,
   { st with sessions := st.sessions ++ [session],
             chatSessions := setCache st.chatSessions newSessionID [systemDirective] })

/-- `SendChatMessage`: ownership check, persist the user turn, build
the message list (in-memory cache if present, else a fresh system
directive; plus the last ≤10 persisted turns; plus the new message),
call the external client (outcome injected as `apiResult`), then
persist the assistant turn, update the cache and bump last-used. The
third component of the result is the message list handed to the
external client (`none` when the call is never reached). -/
def SendChatMessage (st : ChatState) (sessionID userID : Nat) (message : String)
    (apiResult : Except CallError String) :
    Except ChatError ChatMessage × ChatState × Option (List Message) :=
  match findSession st sessionID with
  | none => (Except.error ChatError.sessionNotFound, st, none)
  | some session =>
    if session.userID ≠ userID then (Except.error ChatError.notOwner, st, none)
    else
      let userMessage : ChatMessage :=
        { id := st.nextID, sessionID := sessionID, userID := userID,
          role := "user", content := message }
      let st1 : ChatState :=
        { st with messages := st.messages ++ [userMessage], nextID := st.nextID + 1 }
      let dbMessages := getChatMessagesRepo st1 sessionID
      let base :=
        match lookupCache st1.chatSessions sessionID with
        | some sessionMessages => sessionMessages
        | none => [systemDirective]
      let recent :=
        if dbMessages.length > 10 then dbMessages.drop (dbMessages.length - 10)
        else dbMessages
      let sent := base ++ recent.map (fun m => ({ role := m.role, text := m.content } : Message))
                    ++ [({ role := "user", text := message } : Message)]
      match apiResult with
      | Except.error e => (Except.error (ChatError.api e), st1, some sent)
      | Except.ok responseText =>
        let assistantMessage : ChatMessage :=
          { id := st1.nextID, sessionID := sessionID, userID := userID,
            role := "assistant", content := responseText }
        let st2 : ChatState :=
          { st1 with messages := st1.messages ++ [assistantMessage],
                     nextID := st1.nextID + 1 }
        let st3 : ChatState :=
          { st2 with
              chatSessions := setCache st2.chatSessions sessionID
                (sent ++ [({ role := "assistant", text := responseText } : Message)]),
              lastUsedBumps := st2.lastUsedBumps ++ [sessionID] }
        (Except.ok assistantMessage, st3, some sent)

/-- `GetChatMessages`: ownership check, then all persisted turns in
creation order. -/
def GetChatMessages (st : ChatState) (sessionID userID : Nat) :
    Except ChatError (List ChatMessage) :=
  match findSession st sessionID with
  | none => Except.error ChatError.sessionNotFound
  | some session =>
    if session.userID ≠ userID then Except.error ChatError.notOwner
    else Except.ok (getChatMessagesRepo st sessionID)

/-- Claim C3's message list: the system directive, the last ≤10
persisted turns (the just-persisted user turn included), and the new
message — and nothing more. -/
def claimedSent (persisted : List ChatMessage) (message : String) : List Message :=
  let recent :=
    if persisted.length > 10 then persisted.drop (persisted.length - 10) else persisted
  [systemDirective] ++ recent.map (fun m => ({ role := m.role, text := m.content } : Message))
    ++ [({ role := "user", text := message } : Message)]

/-- C3 scenario: a fresh service, one session created for user 1. -/
def c3St0 : ChatState :=
  (CreateChatSession { sessions := [], messages := [], chatSessions := [],
                       lastUsedBumps := [], nextID := 0 } 1 100).2

/-- C3 scenario: state after the first successful send. -/
def c3St1 : ChatState := (SendChatMessage c3St0 100 1 "m1" (Except.ok "r1")).2.1

/-- C3 scenario: the second call (external outcome irrelevant to the
sent list; an error keeps the persisted turns equal to the turns at
send time). -/
def c3Call2 : Except ChatError ChatMessage × ChatState × Option (List Message) :=
  SendChatMessage c3St1 100 1 "m2" (Except.error CallError.transport)

/-! # Theorems -/

/-- Each weight constant is correctly rounded: it is a multiple of the
ulp at its magnitude and within half an ulp of the decimal literal
(scaled comparison; `10 * w = decimal·2^56·10 ± err`, `err` below half
an ulp times 10). -/
theorem weights_correctly_rounded :
    w04 % 4 = 0 ∧ 10 * w04 - 4 * 2 ^ 56 = 16 ∧ 16 < 20 ∧
    w03 % 4 = 0 ∧ 3 * 2 ^ 56 - 10 * w03 = 8 ∧ 8 < 20 ∧
    w02 % 2 = 0 ∧ 10 * w02 - 2 * 2 ^ 56 = 8 ∧ 8 < 10 ∧
    w015 % 2 = 0 ∧ 3 * 2 ^ 56 - 20 * w015 = 8 ∧ 8 < 20 ∧
    w01 % 1 = 0 ∧ 10 * w01 - 2 ^ 56 = 4 ∧ 4 < 5 := by decide

theorem Frac.leB_iff (a b : Frac) : Frac.leB a b = true ↔ a.toRat ≤ b.toRat := by
  have ha : (0:ℚ) < (a.den : ℚ) := by exact_mod_cast a.dpred.succ_pos
  have hb : (0:ℚ) < (b.den : ℚ) := by exact_mod_cast b.dpred.succ_pos
  rw [Frac.leB, Frac.toRat, Frac.toRat, decide_eq_true_eq, div_le_div_iff₀ ha hb]
  constructor
  · intro h
    exact_mod_cast h
  · intro h
    exact_mod_cast h

/-! ## C1 and C2 -/

theorem scoreGE_trans (a b c : PlantRecommendation) :
    scoreGE a b = true → scoreGE b c = true → scoreGE a c = true := by
  simp only [scoreGE, Frac.leB_iff]
  exact fun h1 h2 => le_trans h2 h1

theorem scoreGE_total (a b : PlantRecommendation) :
    (scoreGE a b || scoreGE b a) = true := by
  simp only [scoreGE, Bool.or_eq_true, Frac.leB_iff]
  exact le_total b.score.toRat a.score.toRat

theorem dval_toRat (n : Nat) : (dval n).toRat = (n : ℚ) / 2 ^ 56 := by
  have h : ((dval n).den : ℚ) = 2 ^ 56 := by
    unfold dval Frac.den
    norm_num
  rw [Frac.toRat, h]
  rfl

theorem dval_lt_dval {a b : Nat} (h : a < b) : (dval a).toRat < (dval b).toRat := by
  rw [dval_toRat, dval_toRat]
  gcongr

/-- The accumulation loop of `generateLocalRecommendations`, reshaped
declaratively: it appends exactly the records of the plants clearing
the threshold, in catalog order. -/
theorem localFold_eq (q : PlantQuestionnaire) (plants : List Plant)
    (acc : List PlantRecommendation) :
    plants.foldl (fun acc p => if qualifies q p then acc ++ [mkLocalRec q p] else acc) acc
      = acc ++ (plants.filter (qualifies q)).map (mkLocalRec q) := by
  induction plants generalizing acc with
  | nil => simp
  | cons p rest ih =>
    by_cases h : qualifies q p = true <;> simp [h, ih, List.filter_cons]

theorem generateLocal_eq (q : PlantQuestionnaire) (plants : List Plant) :
    generateLocalRecommendations q plants =
      if 5 < (localSorted q plants).length then (localSorted q plants).take 5
      else localSorted q plants := by
  unfold generateLocalRecommendations localSorted
  rw [localFold_eq]
  simp


/-- C1 counterexample: with a given-but-empty preferred location and
empty care notes the code adds no location bonus (its guard requires
non-empty notes), while the claim's location rule fires (the empty
location trivially occurs in the empty notes), so the claimed score
differs from the computed one. -/
theorem C1_counterexample :
    scorePlantScore c1Q c1P = 0 ∧ claimScoreStated c1Q c1P = w02 ∧
      scorePlantScore c1Q c1P ≠ claimScoreStated c1Q c1P := by
  refine ⟨by decide, by decide, by decide⟩

set_option maxHeartbeats 1000000 in
/-- C1 amended: the computed score is the binary64 sum of the four
independent rule contributions, with the location rule additionally
requiring non-empty care notes; the concrete scenario (MEDIUM/pet/3/
"bedroom" against MEDIUM/3/"great for a bedroom") yields exactly 1.0. -/
theorem C1_amended_rules :
    (∀ q p, scorePlantScore q p = claimScoreAmended q p) ∧
      (dval (scorePlantScore scenQ scenP)).toRat = 1 := by
  constructor
  · intro q p
    rcases q with ⟨qid, quser, qs, qpet, qcare, qloc, qadd⟩
    rcases p with ⟨pid, pname, psci, ⟨ps, pfert, pnotes⟩⟩
    have hd : (pfert - qcare).natAbs = (qcare - pfert).natAbs := by omega
    cases qs <;> cases ps <;> rcases qloc with _ | loc <;>
      simp only [scorePlantScore, claimScoreAmended, claimSunContrib, claimCareContrib,
        claimPetContrib, claimLocContribAmended, hd, List.foldl, adjacentLevel] <;>
      simp <;> split_ifs <;> first | rfl | decide
  · have h : scorePlantScore scenQ scenP = 2 ^ 56 := by decide
    rw [h, dval_toRat]
    norm_num

/-- C2 counterexample: the claim's boundary example (MEDIUM-preference,
pet-friendly, care-level-3 questionnaire against a HIGH-sunlight,
care-burden-1, empty-notes plant) does NOT compute to the binary64
value 0.3: the code computes `0.2 + 0.1` in binary64, which is
`0.30000000000000004 > 0.3`, so the plant is included in the output,
not excluded. -/
theorem C2_counterexample :
    scorePlantScore c2Q c2P = dadd w02 w01 ∧ w03 < dadd w02 w01 ∧
      (generateLocalRecommendations c2Q [c2P]).map (fun r => r.plantID) = [c2P.id] := by
  have hq : qualifies c2Q c2P = true := by decide
  refine ⟨by decide, by decide, ?_⟩
  rw [generateLocal_eq]
  simp [localSorted, hq, List.mergeSort, mkLocalRec]

set_option maxHeartbeats 800000 in
/-- C2 amended: the output contains exactly records of plants whose
binary64-computed score strictly exceeds the binary64 value 0.3 (a
plant computing to exactly that value — e.g. a care-level-only match —
is excluded, but the claim's 0.2+0.1 example computes to
0.30000000000000004 and is included), sorted descending, truncated to
at most 5; when nothing clears the threshold the output is empty and no
error is possible (the function is total). -/
theorem C2_amended_threshold (q : PlantQuestionnaire) (plants : List Plant) :
    (∀ r ∈ generateLocalRecommendations q plants, (dval w03).toRat < r.score.toRat) ∧
    List.Pairwise (fun a b => b.score.toRat ≤ a.score.toRat)
      (generateLocalRecommendations q plants) ∧
    (generateLocalRecommendations q plants).length
      = min 5 ((plants.filter (qualifies q)).length) ∧
    ((plants.filter (qualifies q)).length ≤ 5 →
      ∀ p ∈ plants, qualifies q p = true →
        mkLocalRec q p ∈ generateLocalRecommendations q plants) := by
  have hsub : (generateLocalRecommendations q plants).Sublist (localSorted q plants) := by
    rw [generateLocal_eq]
    split_ifs
    · exact List.take_sublist _ _
    · exact List.Sublist.refl _
  have hsorted : List.Pairwise (fun a b => scoreGE a b = true) (localSorted q plants) :=
    List.sorted_mergeSort scoreGE_trans scoreGE_total _
  have hlenSorted : (localSorted q plants).length = (plants.filter (qualifies q)).length := by
    simp [localSorted]
  refine ⟨?_, ?_, ?_, ?_⟩
  · intro r hr
    have hr2 : r ∈ localSorted q plants := hsub.subset hr
    rw [localSorted, List.mem_mergeSort] at hr2
    obtain ⟨p, hpf, rfl⟩ := List.mem_map.1 hr2
    have hq := (List.mem_filter.1 hpf).2
    simp only [qualifies, decide_eq_true_eq] at hq
    exact dval_lt_dval hq
  · refine (hsorted.sublist hsub).imp ?_
    intro a b h
    simp only [scoreGE] at h
    exact (Frac.leB_iff _ _).1 h
  · rw [generateLocal_eq]
    split_ifs with h
    · rw [List.length_take]
      omega
    · omega
  · intro hlen p hp hq
    have hno : ¬ 5 < (localSorted q plants).length := by omega
    rw [generateLocal_eq, if_neg hno, localSorted, List.mem_mergeSort]
    exact List.mem_map.2 ⟨p, List.mem_filter.2 ⟨hp, hq⟩, rfl⟩

/-- Witness for `C2_amended_threshold` at the concrete boundary
scenario. -/
theorem C2_amended_witness :
    mkLocalRec c2Q c2P ∈ generateLocalRecommendations c2Q [c2P] ∧
      (dval w03).toRat < (mkLocalRec c2Q c2P).score.toRat := by
  have h := C2_amended_threshold c2Q [c2P]
  have hq : qualifies c2Q c2P = true := by decide
  have hlen : (([c2P]).filter (qualifies c2Q)).length ≤ 5 := by simp [hq]
  have hmem := h.2.2.2 hlen c2P (by simp) hq
  exact ⟨hmem, h.1 _ hmem⟩

/-! ## C5: the Response Parser -/

theorem appendReason_of_ne (r l : List Char) (h : r ≠ []) :
    appendReason r l = r ++ '\n' :: l := by
  unfold appendReason
  rw [if_pos]
  exact List.length_pos.mpr h

theorem appendReason_nil (l : List Char) : appendReason [] l = l := by
  unfold appendReason
  simp

theorem foldl_appendReason_ne (t : List (List Char)) :
    ∀ r : List Char, r ≠ [] → t ≠ [] →
      t.foldl appendReason r = r ++ '\n' :: joinNL t := by
  induction t with
  | nil => exact fun r _ ht => absurd rfl ht
  | cons l t2 ih =>
    intro r hr _
    cases t2 with
    | nil => simp [List.foldl, appendReason_of_ne _ _ hr, joinNL]
    | cons l2 t3 =>
      calc (l :: l2 :: t3).foldl appendReason r
          = (l2 :: t3).foldl appendReason (r ++ '\n' :: l) := by
            rw [List.foldl, appendReason_of_ne _ _ hr]
        _ = (r ++ '\n' :: l) ++ '\n' :: joinNL (l2 :: t3) := ih _ (by simp) (by simp)
        _ = r ++ '\n' :: joinNL (l :: l2 :: t3) := by simp [joinNL]

theorem foldl_appendReason_nil (t : List (List Char)) (hne : ∀ l ∈ t, l ≠ []) :
    t.foldl appendReason [] = joinNL t := by
  cases t with
  | nil => rfl
  | cons l t2 =>
    have hl : l ≠ [] := hne l (by simp)
    cases t2 with
    | nil => simp [List.foldl, appendReason_nil, joinNL]
    | cons l2 t3 =>
      rw [List.foldl, appendReason_nil,
        foldl_appendReason_ne (l2 :: t3) l hl (by simp)]
      simp [joinNL]

theorem get?_lt_length {plants : List Plant} {k : Nat} {p : Plant}
    (h : plants.get? k = some p) : k < plants.length := by
  by_contra hc
  rw [List.get?_eq_none.mpr (by omega)] at h
  exact Option.noConfusion h

theorem flushState_open (qid : Nat) (plants : List Plant) (r0 : List PlantRecommendation)
    (n : Int) (s : Frac) (rv : List Char) (p : Plant)
    (hn : 0 < n) (hp : plants.get? (n.toNat - 1) = some p) :
    flushState qid plants
        { recs := r0, currentPlantNumber := n, currentScore := s,
          currentReasoning := rv, parsingReasoning := true }
      = r0 ++ [{ questionnaireID := qid, plantID := p.id, score := s, reasoning := rv }] := by
  have hlen : n.toNat - 1 < plants.length := get?_lt_length hp
  unfold flushState
  dsimp only
  rw [if_pos ⟨rfl, hn⟩, if_pos (by omega), hp]

theorem flushState_closed (qid : Nat) (plants : List Plant) (r0 : List PlantRecommendation)
    (m : Int) (s : Frac) (rv : List Char) :
    flushState qid plants
        { recs := r0, currentPlantNumber := m, currentScore := s,
          currentReasoning := rv, parsingReasoning := false } = r0 := by
  unfold flushState
  dsimp only
  rw [if_neg]
  simp

theorem lineStep_of_noRec (qid : Nat) (plants : List Plant) (st : ParseState) (l : List Char)
    (h : lineRec plants l = none) :
    lineStep qid plants st l =
      if st.parsingReasoning then
        { st with currentReasoning := appendReason st.currentReasoning l }
      else st := by
  unfold lineRec at h
  unfold lineStep
  cases hs : scanLine l with
  | none => rfl
  | some nts =>
    rw [hs] at h
    dsimp only at h ⊢
    rw [if_neg]
    intro hv
    rw [if_pos hv.1] at h
    cases hg : plants.get? (nts.1.toNat - 1) with
    | some p2 => rw [hg] at h; exact Option.noConfusion h
    | none =>
      have hlen := List.get?_eq_none.mp hg
      have h1 := hv.1
      have h2 := hv.2
      omega

theorem lineStep_of_rec (qid : Nat) (plants : List Plant) (st : ParseState) (l : List Char)
    (p : Plant) (s : Frac) (h : lineRec plants l = some (p, s)) :
    ∃ n : Int, 0 < n ∧ plants.get? (n.toNat - 1) = some p ∧
      lineStep qid plants st l =
        { recs := flushState qid plants st, currentPlantNumber := n,
          currentScore := s, currentReasoning := [], parsingReasoning := true } := by
  unfold lineRec at h
  cases hs : scanLine l with
  | none => rw [hs] at h; exact Option.noConfusion h
  | some nts =>
    rw [hs] at h
    dsimp only at h
    by_cases h0 : 0 < nts.1
    · rw [if_pos h0] at h
      cases hg : plants.get? (nts.1.toNat - 1) with
      | none => rw [hg] at h; exact Option.noConfusion h
      | some p2 =>
        rw [hg] at h
        obtain ⟨hp, hsc⟩ : p2 = p ∧ nts.2.2 = s := by
          have := Option.some.inj h
          exact ⟨congrArg Prod.fst this, congrArg Prod.snd this⟩
        have hle : nts.1 ≤ (plants.length : Int) := by
          have := get?_lt_length (hp ▸ hg)
          omega
        refine ⟨nts.1, h0, by rw [hg, hp], ?_⟩
        unfold lineStep
        rw [hs]
        dsimp only
        rw [hsc, if_pos ⟨h0, hle⟩]
    · rw [if_neg h0] at h
      exact Option.noConfusion h

theorem claimScanSpan_nil (qid : Nat) (plants : List Plant) :
    claimScanSpan qid plants [] = [] := by
  rw [claimScanSpan.eq_def]

theorem claimScanSpan_cons (qid : Nat) (plants : List Plant) (l : List Char)
    (t : List (List Char)) :
    claimScanSpan qid plants (l :: t) =
      match lineRec plants l with
      | none => claimScanSpan qid plants t
      | some ps =>
        { questionnaireID := qid, plantID := ps.1.id, score := ps.2,
          reasoning := joinNL (t.takeWhile (noRec plants)) }
          :: claimScanSpan qid plants (t.dropWhile (noRec plants)) := by
  rw [claimScanSpan.eq_def]

theorem machineRun_open (qid : Nat) (plants : List Plant) (ls : List (List Char)) :
    ∀ (r0 : List PlantRecommendation) (n : Int) (s : Frac) (rv : List Char) (p : Plant),
      (∀ l ∈ ls, l ≠ []) →
      0 < n → plants.get? (n.toNat - 1) = some p →
      flushState qid plants (ls.foldl (lineStep qid plants)
          { recs := r0, currentPlantNumber := n, currentScore := s,
            currentReasoning := rv, parsingReasoning := true })
        = r0 ++ { questionnaireID := qid, plantID := p.id, score := s,
                  reasoning := (ls.takeWhile (noRec plants)).foldl appendReason rv }
            :: claimScanSpan qid plants (ls.dropWhile (noRec plants)) := by
  induction ls with
  | nil =>
    intro r0 n s rv p _ hn hp
    simp only [List.foldl, List.takeWhile, List.dropWhile]
    rw [flushState_open qid plants r0 n s rv p hn hp, claimScanSpan_nil]
  | cons l t ih =>
    intro r0 n s rv p hne hn hp
    cases hr : lineRec plants l with
    | none =>
      have hnr : noRec plants l = true := by simp [noRec, hr]
      rw [List.foldl, lineStep_of_noRec qid plants _ l hr]
      dsimp only
      rw [if_pos rfl]
      rw [ih r0 n s (appendReason rv l) p (fun x hx => hne x (by simp [hx])) hn hp]
      rw [List.takeWhile_cons, List.dropWhile_cons]
      simp [hnr, List.foldl]
    | some ps =>
      obtain ⟨p2, s2⟩ := ps
      have hnr : noRec plants l = false := by simp [noRec, hr]
      obtain ⟨n2, hn2, hg2, heq⟩ := lineStep_of_rec qid plants _ l p2 s2 hr
      rw [List.foldl, heq, flushState_open qid plants r0 n s rv p hn hp]
      rw [ih _ n2 s2 [] p2 (fun x hx => hne x (by simp [hx])) hn2 hg2]
      have hJ : (t.takeWhile (noRec plants)).foldl appendReason [] =
          joinNL (t.takeWhile (noRec plants)) := by
        refine foldl_appendReason_nil _ (fun x hx => ?_)
        exact hne x (by simp [(List.takeWhile_sublist _).subset hx])
      have htw : (l :: t).takeWhile (noRec plants) = [] := by
        simp [List.takeWhile_cons, hnr]
      have hdw : (l :: t).dropWhile (noRec plants) = l :: t := by
        simp [List.dropWhile_cons, hnr]
      rw [htw, hdw, claimScanSpan_cons]
      simp only [hr, hJ]
      simp [List.foldl]

theorem machineRun_closed (qid : Nat) (plants : List Plant) (ls : List (List Char)) :
    ∀ (r0 : List PlantRecommendation) (m : Int) (s0 : Frac) (rv0 : List Char),
      (∀ l ∈ ls, l ≠ []) →
      flushState qid plants (ls.foldl (lineStep qid plants)
          { recs := r0, currentPlantNumber := m, currentScore := s0,
            currentReasoning := rv0, parsingReasoning := false })
        = r0 ++ claimScanSpan qid plants ls := by
  induction ls with
  | nil =>
    intro r0 m s0 rv0 _
    simp only [List.foldl]
    rw [flushState_closed, claimScanSpan_nil, List.append_nil]
  | cons l t ih =>
    intro r0 m s0 rv0 hne
    cases hr : lineRec plants l with
    | none =>
      rw [List.foldl, lineStep_of_noRec qid plants _ l hr]
      dsimp only
      rw [if_neg (by simp)]
      rw [ih r0 m s0 rv0 (fun x hx => hne x (by simp [hx])), claimScanSpan_cons]
      simp [hr]
    | some ps =>
      obtain ⟨p2, s2⟩ := ps
      obtain ⟨n2, hn2, hg2, heq⟩ := lineStep_of_rec qid plants _ l p2 s2 hr
      rw [List.foldl, heq, flushState_closed]
      rw [machineRun_open qid plants t _ n2 s2 [] p2
        (fun x hx => hne x (by simp [hx])) hn2 hg2]
      have hJ : (t.takeWhile (noRec plants)).foldl appendReason [] =
          joinNL (t.takeWhile (noRec plants)) := by
        refine foldl_appendReason_nil _ (fun x hx => ?_)
        exact hne x (by simp [(List.takeWhile_sublist _).subset hx])
      rw [claimScanSpan_cons]
      simp [hr, hJ]

theorem parseFold_filter (qid : Nat) (plants : List Plant) (ls : List (List Char)) :
    ∀ st, ls.foldl (parseStep qid plants) st
      = (ls.filter (fun l => !l.isEmpty)).foldl (lineStep qid plants) st := by
  induction ls with
  | nil => intro st; rfl
  | cons l t ih =>
    intro st
    by_cases h : l.isEmpty
    · rw [List.foldl, List.filter_cons]
      simp only [h]
      rw [parseStep, if_pos h, ih]
      rfl
    · rw [List.foldl, List.filter_cons]
      simp only [h]
      rw [parseStep, if_neg h, ih]
      rfl

/-- C5 amended: the Response Parser equals the claim's exact scan
applied to the empty-line-filtered line list (grouping form: a valid
record-start line yields one record whose reasoning is the
newline-joined run of following non-record lines; end of input flushes
the last record), and it fails with a parse error iff zero records were
extracted (the `if .isEmpty` on the right). -/
theorem C5_amended (response : List Char) (qid : Nat) (plants : List Plant) :
    parseYandexGPTResponse response qid plants =
      (let rs := claimScanSpan qid plants
          ((splitLines response).filter (fun l => !l.isEmpty))
       if rs.isEmpty then Except.error () else Except.ok rs) := by
  have hkey : flushState qid plants
      ((splitLines response).foldl (parseStep qid plants) initialParseState)
      = claimScanSpan qid plants ((splitLines response).filter (fun l => !l.isEmpty)) := by
    rw [parseFold_filter]
    have h := machineRun_closed qid plants ((splitLines response).filter (fun l => !l.isEmpty))
      [] 0 { num := 0, dpred := 0 } []
      (fun x hx => by
        have := (List.mem_filter.mp hx).2
        simpa using this)
    simpa [initialParseState] using h
  show (if (flushState qid plants
      ((splitLines response).foldl (parseStep qid plants) initialParseState)).isEmpty
    then Except.error () else Except.ok (flushState qid plants
      ((splitLines response).foldl (parseStep qid plants) initialParseState)))
    = _
  rw [hkey]

/-- C5 counterexample: the source skips empty lines entirely
(`continue`), while the claim's scan appends every non-matching line to
the open record's reasoning; on `"1. Rose - 0.9\na\n\nb"` the code
produces reasoning `"a\nb"` and the claimed scan `"a\n\nb"`. -/
theorem C5_counterexample :
    parseYandexGPTResponse c5Input 99 [c5Plant]
        = Except.ok [{ questionnaireID := 99, plantID := 3, score := { num := 9, dpred := 9 },
                       reasoning := ("a\nb").toList }] ∧
      claimParseStated c5Input 99 [c5Plant]
        = Except.ok [{ questionnaireID := 99, plantID := 3, score := { num := 9, dpred := 9 },
                       reasoning := ("a\n\nb").toList }] ∧
      parseYandexGPTResponse c5Input 99 [c5Plant] ≠ claimParseStated c5Input 99 [c5Plant] := by
  refine ⟨rfl, rfl, ?_⟩
  intro h
  have h2 : some [("a\nb").toList] = some [("a\n\nb").toList] := by
    calc some [("a\nb").toList]
        = (parseYandexGPTResponse c5Input 99 [c5Plant]).toOption.map
            (List.map (fun r => r.reasoning)) := by rfl
      _ = (claimParseStated c5Input 99 [c5Plant]).toOption.map
            (List.map (fun r => r.reasoning)) := by rw [h]
      _ = some [("a\n\nb").toList] := by rfl
  exact absurd h2 (by decide)

/-! ## C6: the External Recommendation Client -/

/-! C6 -/

/-- C6 counterexample: the source tests `resp.StatusCode !=
http.StatusOK`, i.e. specifically 200 — a 201 response, although a 2xx
success, fails with an error carrying status 201, contradicting the
claim's "exactly when the HTTP status is not a 2xx success". -/
theorem C6_counterexample :
    callYandexGPTAPI true 201
        (some { alternatives := [{ message := { role := "assistant", text := "hi" } }] })
      = Except.error (CallError.status 201) ∧ 200 ≤ 201 ∧ 201 < 300 := by
  refine ⟨rfl, by decide, by decide⟩

/-- C6 amended: with the transport succeeding, the client fails with
an error carrying the status code exactly when the status is not the
literal 200; at status 200 it fails with an empty-response error when
the decoded body has no alternatives, and otherwise returns the first
alternative's message text verbatim. -/
theorem C6_amended_status (statusCode : Nat) (body : Option GptResponseBody) :
    (statusCode ≠ 200 →
      callYandexGPTAPI true statusCode body = Except.error (CallError.status statusCode)) ∧
    (statusCode = 200 → ∀ c,
      callYandexGPTAPI true statusCode body ≠ Except.error (CallError.status c)) ∧
    (∀ b, statusCode = 200 → body = some b → b.alternatives = [] →
      callYandexGPTAPI true statusCode body = Except.error CallError.empty) ∧
    (∀ b alt rest, statusCode = 200 → body = some b → b.alternatives = alt :: rest →
      callYandexGPTAPI true statusCode body = Except.ok alt.message.text) := by
  refine ⟨?_, ?_, ?_, ?_⟩
  · intro h
    unfold callYandexGPTAPI
    rw [if_neg (by simp), if_pos h]
  · intro h c
    subst h
    unfold callYandexGPTAPI
    rw [if_neg (by simp), if_neg (by simp)]
    cases body with
    | none => simp
    | some r =>
      cases hr : r.alternatives with
      | nil => simp [hr]
      | cons alt rest => simp [hr]
  · intro b h hb halt
    subst h hb
    unfold callYandexGPTAPI
    rw [if_neg (by simp), if_neg (by simp)]
    simp [halt]
  · intro b alt rest h hb halt
    subst h hb
    unfold callYandexGPTAPI
    rw [if_neg (by simp), if_neg (by simp)]
    simp [halt]

/-- Witness for `C6_amended_status` at statuses 500 and 200. -/
theorem C6_witness :
    callYandexGPTAPI true 500 none = Except.error (CallError.status 500) ∧
    callYandexGPTAPI true 200 (some { alternatives := [] }) = Except.error CallError.empty ∧
    callYandexGPTAPI true 200
        (some { alternatives := [{ message := { role := "assistant", text := "hi" } }] })
      = Except.ok "hi" := by
  refine ⟨(C6_amended_status 500 none).1 (by decide),
    (C6_amended_status 200 (some { alternatives := [] })).2.2.1 { alternatives := [] } rfl rfl rfl,
    (C6_amended_status 200 _).2.2.2 _ { message := { role := "assistant", text := "hi" } } [] rfl rfl rfl⟩

/-! ## C8: score bounds -/

set_option maxHeartbeats 1000000 in
theorem scorePlantScore_le (q : PlantQuestionnaire) (p : Plant) :
    scorePlantScore q p ≤ 2 ^ 56 := by
  rcases q with ⟨qid, quser, qs, qpet, qcare, qloc, qadd⟩
  rcases p with ⟨pid, pname, psci, ⟨ps, pfert, pnotes⟩⟩
  cases qs <;> cases ps <;> rcases qloc with _ | loc <;>
    simp only [scorePlantScore] <;>
    simp <;> split_ifs <;> decide

theorem mem_generateLocal (q : PlantQuestionnaire) (plants : List Plant)
    (r : PlantRecommendation) (hr : r ∈ generateLocalRecommendations q plants) :
    ∃ p ∈ plants, r = mkLocalRec q p := by
  have hsub : (generateLocalRecommendations q plants).Sublist (localSorted q plants) := by
    rw [generateLocal_eq]
    split_ifs
    · exact List.take_sublist _ _
    · exact List.Sublist.refl _
  have hr2 : r ∈ localSorted q plants := hsub.subset hr
  rw [localSorted, List.mem_mergeSort] at hr2
  obtain ⟨p, hpf, rfl⟩ := List.mem_map.1 hr2
  exact ⟨p, (List.mem_filter.1 hpf).1, rfl⟩

/-- C8 counterexample: the Response Parser stores the parsed score
unvalidated — model text `"1. X - 2.0"` produces a recommendation with
score 2, outside [0, 1]. -/
theorem C8_counterexample :
    parseYandexGPTResponse (("1. X - 2.0").toList) 99 [c5Plant]
        = Except.ok [{ questionnaireID := 99, plantID := 3,
                       score := { num := 20, dpred := 9 }, reasoning := [] }] ∧
      ¬(({ num := 20, dpred := 9 } : Frac).toRat ≤ 1) := by
  refine ⟨rfl, ?_⟩
  norm_num [Frac.toRat, Frac.den]

/-- C8 amended: every Scoring-Engine recommendation carries a score in
[0, 1]; Response-Parser recommendations carry the float parsed from the
model text without validation and can lie outside [0, 1]. -/
theorem C8_amended_bounds :
    (∀ (q : PlantQuestionnaire) (plants : List Plant) (r : PlantRecommendation),
        r ∈ generateLocalRecommendations q plants →
          0 ≤ r.score.toRat ∧ r.score.toRat ≤ 1) ∧
    (∃ r ∈ (parseYandexGPTResponse (("1. X - 2.0").toList) 99 [c5Plant]).toOption.getD [],
        1 < r.score.toRat) := by
  constructor
  · intro q plants r hr
    obtain ⟨p, _, rfl⟩ := mem_generateLocal q plants r hr
    have hle := scorePlantScore_le q p
    constructor
    · rw [mkLocalRec]
      rw [dval_toRat]
      positivity
    · rw [mkLocalRec, dval_toRat]
      rw [div_le_one (by positivity)]
      exact_mod_cast hle
  · refine ⟨{ questionnaireID := 99, plantID := 3,
              score := { num := 20, dpred := 9 }, reasoning := [] }, ?_, ?_⟩
    · have h : (parseYandexGPTResponse (("1. X - 2.0").toList) 99 [c5Plant]).toOption.getD []
          = [{ questionnaireID := 99, plantID := 3,
               score := { num := 20, dpred := 9 }, reasoning := [] }] := rfl
      rw [h]
      simp
    · norm_num [Frac.toRat, Frac.den]

/-- Witness for `C8_amended_bounds` at the concrete boundary plant. -/
theorem C8_witness :
    0 ≤ (mkLocalRec c2Q c2P).score.toRat ∧ (mkLocalRec c2Q c2P).score.toRat ≤ 1 := by
  have hq : qualifies c2Q c2P = true := by decide
  have hmem : mkLocalRec c2Q c2P ∈ generateLocalRecommendations c2Q [c2P] := by
    rw [generateLocal_eq]
    simp [localSorted, hq, List.mergeSort]
  exact C8_amended_bounds.1 c2Q [c2P] _ hmem

/-! ## C4: orchestrator fallback -/

/-- C4: whenever the external pipeline fails (transport, status,
empty, decode or parse failure) or no API key is configured,
`GenerateRecommendations` behaves exactly as the pure-local run: it
saves the local Scoring Engine's recommendations and returns the joined
plants without surfacing the pipeline error (the fallback itself is
total), and with an empty catalog the outcome is an empty, non-error
list. -/
theorem C4_fallback (st : RecState) (qid : Nat) (key : String)
    (apiResult : Except CallError String) (q : PlantQuestionnaire)
    (hq : getQuestionnaire st qid = some q)
    (hfail : (∃ e, generateRecommendationsWithYandexGPT q st.plants apiResult
                = Except.error e) ∨ key = "") :
    GenerateRecommendations st qid key apiResult
        = GenerateRecommendations st qid "" apiResult ∧
    GenerateRecommendations st qid "" apiResult
        = (match saveAll st (generateLocalRecommendations q st.plants) with
           | Except.error e => Except.error (GenError.save e)
           | Except.ok st2 => Except.ok (getRecommendedPlants st2 qid, st2)) ∧
    (st.plants = [] → GenerateRecommendations st qid key apiResult = Except.ok ([], st)) := by
  have h2 : GenerateRecommendations st qid "" apiResult
      = (match saveAll st (generateLocalRecommendations q st.plants) with
         | Except.error e => Except.error (GenError.save e)
         | Except.ok st2 => Except.ok (getRecommendedPlants st2 qid, st2)) := by
    unfold GenerateRecommendations
    rw [hq]
    dsimp only
    rw [if_neg (by simp)]
  have h1 : GenerateRecommendations st qid key apiResult
      = GenerateRecommendations st qid "" apiResult := by
    rcases hfail with ⟨e, he⟩ | hkey
    · by_cases hk : key = ""
      · rw [hk]
      · unfold GenerateRecommendations
        rw [hq]
        dsimp only
        rw [if_pos hk, if_neg (by simp), he]
    · rw [hkey]
  refine ⟨h1, h2, ?_⟩
  intro hpl
  rw [h1, h2]
  have hl : generateLocalRecommendations q st.plants = [] := by
    rw [hpl, generateLocal_eq]
    simp [localSorted]
  rw [hl]
  have hjoin : getRecommendedPlants st qid = [] := by
    unfold getRecommendedPlants
    rw [List.filterMap_eq_nil_iff]
    intro r _
    rw [hpl]
    rfl
  show Except.ok (getRecommendedPlants st qid, st) = Except.ok ([], st)
  rw [hjoin]

/-- Witness for `C4_fallback`: empty catalog, configured key, failing
transport — the result is an empty, non-error list. -/
theorem C4_witness :
    GenerateRecommendations { questionnaires := [c2Q], plants := [], recs := [] } 7 "k"
        (Except.error CallError.transport)
      = Except.ok ([], { questionnaires := [c2Q], plants := [], recs := [] }) := by
  exact (C4_fallback { questionnaires := [c2Q], plants := [], recs := [] } 7 "k"
    (Except.error CallError.transport) c2Q rfl
    (Or.inl ⟨PipelineError.api CallError.transport, rfl⟩)).2.2 rfl

/-! ## C9: persistence uniqueness -/

/-- C9 counterexample: `SaveRecommendation` is a plain `INSERT` (no
upsert, no prior existence check); regenerating for a questionnaire
whose (questionnaire, plant) pair is already stored makes the save —
and hence `GenerateRecommendations` — fail with a uniqueness violation
instead of never attempting the second row. -/
theorem C9_counterexample :
    saveRecommendation c9St (mkLocalRec c2Q c2P) = Except.error SaveError.uniqueViolation ∧
    GenerateRecommendations c9St 7 "" (Except.error CallError.transport)
      = Except.error (GenError.save SaveError.uniqueViolation) := by
  have hgen : generateLocalRecommendations c2Q [c2P] = [mkLocalRec c2Q c2P] := by
    rw [generateLocal_eq]
    simp [localSorted, (by decide : qualifies c2Q c2P = true), List.mergeSort]
  constructor
  · rfl
  · unfold GenerateRecommendations
    rw [show getQuestionnaire c9St 7 = some c2Q from rfl]
    dsimp only
    rw [if_neg (by simp)]
    rw [show c9St.plants = [c2P] from rfl, hgen]
    rfl

/-- C9 amended: the at-most-one-row-per-(questionnaire, plant)
invariant is preserved — but by the database `UNIQUE` constraint, not
by an upsert or check-then-insert: a save onto a fresh pair appends the
row and preserves the invariant, and a save onto a stored pair fails
with a uniqueness violation. -/
theorem C9_amended_unique :
    (∀ (st : RecState) (rec : PlantRecommendation) (st2 : RecState),
        saveRecommendation st rec = Except.ok st2 →
          pairUniqueInv st.recs → pairUniqueInv st2.recs) ∧
    (∀ (st : RecState) (rec : PlantRecommendation),
        pairStored st.recs rec.questionnaireID rec.plantID = true →
          saveRecommendation st rec = Except.error SaveError.uniqueViolation) := by
  constructor
  · intro st rec st2 hok hinv
    unfold saveRecommendation at hok
    by_cases hs : pairStored st.recs rec.questionnaireID rec.plantID = true
    · rw [if_pos hs] at hok
      exact Except.noConfusion hok
    · rw [if_neg hs] at hok
      obtain rfl := (Except.ok.inj hok).symm
      dsimp only
      rw [pairUniqueInv, List.pairwise_append]
      refine ⟨hinv, List.pairwise_singleton _ _, ?_⟩
      intro a ha b hb
      have hb2 : b = rec := by simpa using hb
      subst hb2
      simp only [pairStored, List.any_eq_true] at hs
      intro hpair
      exact hs ⟨a, ha, by simp [hpair.1, hpair.2]⟩
  · intro st rec hs
    unfold saveRecommendation
    rw [if_pos hs]

/-- Witness for `C9_amended_unique`: a successful save preserving the
invariant and a duplicate save failing. -/
theorem C9_witness :
    pairUniqueInv
        [{ questionnaireID := 7, plantID := 42, score := dval w03, reasoning := [] },
         { questionnaireID := 8, plantID := 42, score := dval w03, reasoning := [] }] ∧
    saveRecommendation c9St
        { questionnaireID := 7, plantID := 42, score := dval w01, reasoning := [] }
      = Except.error SaveError.uniqueViolation := by
  constructor
  · exact C9_amended_unique.1
      { questionnaires := [], plants := [],
        recs := [{ questionnaireID := 7, plantID := 42, score := dval w03, reasoning := [] }] }
      { questionnaireID := 8, plantID := 42, score := dval w03, reasoning := [] }
      { questionnaires := [], plants := [],
        recs := [{ questionnaireID := 7, plantID := 42, score := dval w03, reasoning := [] },
                 { questionnaireID := 8, plantID := 42, score := dval w03, reasoning := [] }] }
      rfl (by simp [pairUniqueInv])
  · exact C9_amended_unique.2 c9St
      { questionnaireID := 7, plantID := 42, score := dval w01, reasoning := [] } rfl

/-! ## C3, C7, C10: chat -/

/-- C3: the claim is violated by the code — the in-memory session
cache accumulates the entire previously-sent list, so the second
`SendChatMessage` call on a session sends the cached history plus the
last ≤10 persisted turns plus the new message (8 messages, with the
first user turn repeated three times), not the claimed system directive
+ last ≤10 persisted turns + new message (5 messages). -/
theorem C3_cache_growth :
    c3Call2.2.2 = some
        ([systemDirective,
          { role := "user", text := "m1" }, { role := "user", text := "m1" },
          { role := "assistant", text := "r1" },
          { role := "user", text := "m1" }, { role := "assistant", text := "r1" },
          { role := "user", text := "m2" }, { role := "user", text := "m2" }]) ∧
    claimedSent (getChatMessagesRepo c3Call2.2.1 100) "m2"
      = [systemDirective,
         { role := "user", text := "m1" }, { role := "assistant", text := "r1" },
         { role := "user", text := "m2" }, { role := "user", text := "m2" }] ∧
    c3Call2.2.2 ≠ some (claimedSent (getChatMessagesRepo c3Call2.2.1 100) "m2") := by
  refine ⟨rfl, rfl, ?_⟩
  intro h
  have h1 : c3Call2.2.2 = some
      ([systemDirective,
        { role := "user", text := "m1" }, { role := "user", text := "m1" },
        { role := "assistant", text := "r1" },
        { role := "user", text := "m1" }, { role := "assistant", text := "r1" },
        { role := "user", text := "m2" }, { role := "user", text := "m2" }]) := rfl
  have h2 : claimedSent (getChatMessagesRepo c3Call2.2.1 100) "m2"
      = [systemDirective,
         { role := "user", text := "m1" }, { role := "assistant", text := "r1" },
         { role := "user", text := "m2" }, { role := "user", text := "m2" }] := rfl
  rw [h1, h2] at h
  exact absurd h (by decide)

/-- C7: `SendChatMessage` and `GetChatMessages` fail with an
authorization error whenever the caller is not the session's owner, and
in that case the state is returned unchanged — no turn is persisted and
no session state is modified (the returned state is `st` itself and the
external client is never reached). -/
theorem C7_ownership (st : ChatState) (sid uid : Nat) (msg : String)
    (apiResult : Except CallError String) (session : ChatSession)
    (hfind : findSession st sid = some session) (hne : session.userID ≠ uid) :
    SendChatMessage st sid uid msg apiResult = (Except.error ChatError.notOwner, st, none) ∧
    GetChatMessages st sid uid = Except.error ChatError.notOwner := by
  constructor
  · unfold SendChatMessage
    rw [hfind]
    dsimp only
    rw [if_pos hne]
  · unfold GetChatMessages
    rw [hfind]
    dsimp only
    rw [if_pos hne]

/-- Witness for `C7_ownership`: user 2 calling user 1's session. -/
theorem C7_witness :
    SendChatMessage c3St0 100 2 "hello" (Except.ok "resp")
        = (Except.error ChatError.notOwner, c3St0, none) ∧
      GetChatMessages c3St0 100 2 = Except.error ChatError.notOwner := by
  exact C7_ownership c3St0 100 2 "hello" (Except.ok "resp")
    { id := 100, userID := 1, title := "Разговор о растениях" } rfl (by decide)

/-- C10: when the external completion call fails after the ownership
check has passed, `SendChatMessage` returns the error with the just-
sent user turn already persisted, no assistant turn persisted, the
in-memory working set unchanged, and the last-used timestamp not
bumped. -/
theorem C10_user_turn_persisted (st : ChatState) (sid uid : Nat) (msg : String)
    (e : CallError) (session : ChatSession)
    (hfind : findSession st sid = some session) (hown : session.userID = uid) :
    (SendChatMessage st sid uid msg (Except.error e)).1 = Except.error (ChatError.api e) ∧
    ((SendChatMessage st sid uid msg (Except.error e)).2.1).messages
        = st.messages ++ [{ id := st.nextID, sessionID := sid, userID := uid,
                            role := "user", content := msg }] ∧
    ((SendChatMessage st sid uid msg (Except.error e)).2.1).chatSessions = st.chatSessions ∧
    ((SendChatMessage st sid uid msg (Except.error e)).2.1).lastUsedBumps = st.lastUsedBumps ∧
    ((SendChatMessage st sid uid msg (Except.error e)).2.1).sessions = st.sessions := by
  have key : SendChatMessage st sid uid msg (Except.error e)
      = (Except.error (ChatError.api e),
         ({ st with
             messages := st.messages ++
               [{ id := st.nextID, sessionID := sid, userID := uid,
                  role := "user", content := msg }],
             nextID := st.nextID + 1 } : ChatState),
         (SendChatMessage st sid uid msg (Except.error e)).2.2) := by
    unfold SendChatMessage
    rw [hfind]
    dsimp only
    rw [if_neg (by simp [hown])]
  rw [key]
  exact ⟨rfl, rfl, rfl, rfl, rfl⟩

/-- Witness for `C10_user_turn_persisted` on a fresh session. -/
theorem C10_witness :
    (SendChatMessage c3St0 100 1 "m1" (Except.error CallError.transport)).1
        = Except.error (ChatError.api CallError.transport) ∧
      ((SendChatMessage c3St0 100 1 "m1" (Except.error CallError.transport)).2.1).messages
        = [{ id := 0, sessionID := 100, userID := 1, role := "user", content := "m1" }] ∧
      ((SendChatMessage c3St0 100 1 "m1" (Except.error CallError.transport)).2.1).chatSessions
        = c3St0.chatSessions := by
  have h := C10_user_turn_persisted c3St0 100 1 "m1" CallError.transport
    { id := 100, userID := 1, title := "Разговор о растениях" } rfl rfl
  exact ⟨h.1, h.2.1, h.2.2.1⟩

end Planter
